import Mathlib

/-!
Verification of the uasocial storage/matching core.

The Go source (internal/storage/storage.go and internal/bot/translate.go)
is embedded shallowly: the relational state is a `DB` record of rows, each
SQL query of the source becomes a Lean function over `DB`, and the
notification worker loop becomes a recursive function over its queue.
-/

namespace UASocial

/-- A row of the `locality` table: id, administrative type, two search
name variants, three display names, and the parent reference. -/
structure Locality where
  id : Nat
  type : String
  name_ua : String
  name_ru : String
  public_name_ua : String
  public_name_ru : String
  public_name_en : String
  parent_id : Option Nat
  deriving Repr, DecidableEq

/-- A row of the `category` table. -/
structure Category where
  id : Nat
  name_ua : String
  name_ru : String
  name_en : String
  deriving Repr, DecidableEq

/-- A row of the `app_user` table. -/
structure AppUser where
  id : Nat
  tg_id : Int
  chat_id : Int
  name : String
  language : String
  deriving Repr, DecidableEq

/-- A row of the `help` table. Timestamps are modelled as naturals. -/
structure Help where
  id : Nat
  creator_id : Nat
  category_ids : List Nat
  locality_id : Nat
  description : String
  created_at : Nat
  updated_at : Option Nat
  deleted_at : Option Nat
  deriving Repr, DecidableEq

/-- A row of the `subscription` table (the physical table has no
soft-delete column; `deleteSubscriptionSQL` removes the row). -/
structure Subscription where
  id : Nat
  creator_id : Nat
  category_id : Nat
  locality_id : Nat
  created_at : Nat
  deriving Repr, DecidableEq

/-- The relational store: the five tables the queries touch. -/
structure DB where
  localities : List Locality
  categories : List Category
  users : List AppUser
  helps : List Help
  subscriptions : List Subscription
  deriving Repr, DecidableEq

/-! ### Levenshtein distance (the `levenshtein` SQL function) -/

/-- Textbook Levenshtein recurrence with explicit fuel so that the
definition is structural and reduces in the kernel.  The fuel is never
exhausted when it starts at the combined length of the inputs. -/
def levFuel : Nat → List Char → List Char → Nat
  | _, [], t => t.length
  | _, s, [] => s.length
  | 0, _, _ => 0
  | fuel + 1, a :: s, b :: t =>
    if a = b then levFuel fuel s t
    else 1 + min (levFuel fuel s (b :: t)) (min (levFuel fuel (a :: s) t) (levFuel fuel s t))

/-- Edit distance between two strings. -/
def levenshtein (s t : String) : Nat :=
  levFuel (s.length + t.length) s.data t.data

/-! ### Locality resolver (`selectLocalityRegionsSQL`) -/

/-- Output row of the resolver (Go struct `LocalityRegion`). -/
structure LocalityRegion where
  id : Nat
  leven : Nat
  type : String
  name : String
  region_name : String
  deriving Repr, DecidableEq

/-- The `case l1.type ... end` sort key: CITY, URBAN, SETTLEMENT,
VILLAGE map to 1..4; any other type yields SQL NULL, which sorts last
in ascending order, modelled as 5. -/
def typeRank (t : String) : Nat :=
  if t == "CITY" then 1
  else if t == "URBAN" then 2
  else if t == "SETTLEMENT" then 3
  else if t == "VILLAGE" then 4
  else 5

/-- The resolver's `order by` relation: type rank first, then ascending
edit distance of the UA name. -/
def locLE (a b : LocalityRegion) : Prop :=
  typeRank a.type < typeRank b.type ∨
    (typeRank a.type = typeRank b.type ∧ a.leven ≤ b.leven)

instance : DecidableRel locLE := fun a b => by
  unfold locLE; exact inferInstance

instance : IsTotal LocalityRegion locLE :=
  ⟨by intro a b; unfold locLE; omega⟩

instance : IsTrans LocalityRegion locLE :=
  ⟨by intro a b c; unfold locLE; omega⟩

/-- `selectLocalityRegionsSQL`: two inner self-joins resolve the parent
`l2` and grandparent `l3`; the `where` clause keeps SQL's operator
precedence, in which `or` binds looser than `and`, so the coarse-type
exclusions attach only to the `name_ru` branch; the result is ordered by
type rank, then edit distance of the UA name. -/
def selectLocalityRegions (db : DB) (s : String) : List LocalityRegion :=
  let rows := db.localities.flatMap fun l1 =>
    (db.localities.filter fun l2 => some l2.id == l1.parent_id).flatMap fun l2 =>
      (db.localities.filter fun l3 => some l3.id == l2.parent_id).filterMap fun l3 =>
        if levenshtein l1.name_ua s ≤ 1 ∨
            (levenshtein l1.name_ru s ≤ 1 ∧
              l1.type ≠ "DISTRICT" ∧ l1.type ≠ "STATE" ∧ l1.type ≠ "COUNTRY") then
          some { id := l1.id, leven := levenshtein l1.name_ua s, type := l1.type,
                 name := l1.public_name_ua, region_name := l3.public_name_ua }
        else none
  List.insertionSort locLE rows

/-! ### Help queries -/

/-- One aggregated `json_build_object` entry of a help row's categories. -/
structure CategoryNames where
  name_ua : String
  name_ru : String
  name_en : String
  deriving Repr, DecidableEq

/-- Output row of the help queries (Go struct `Help`). -/
structure HelpRow where
  id : Nat
  creator_id : Nat
  categories : List CategoryNames
  loc_public_name_en : String
  loc_public_name_ru : String
  loc_public_name_ua : String
  language : String
  description : String
  created_at : Nat
  updated_at : Option Nat
  deleted_at : Option Nat
  deriving Repr, DecidableEq

def categoryNames (c : Category) : CategoryNames :=
  { name_ua := c.name_ua, name_ru := c.name_ru, name_en := c.name_en }

/-- The joins shared by every help query: `join app_user u on
h.creator_id = u.id` and `join category c on c.id = any(h.category_ids)`
with `json_agg` over the matching categories.  If no category matches,
the inner join produces no row at all. -/
def helpJoinRow (db : DB) (locUA locRU locEN : String) (h : Help) : Option HelpRow :=
  (db.users.find? fun u => u.id == h.creator_id).bind fun u =>
    let cats := db.categories.filter fun c => h.category_ids.contains c.id
    if cats.isEmpty then none
    else some { id := h.id, creator_id := h.creator_id,
                categories := cats.map categoryNames,
                loc_public_name_en := locEN, loc_public_name_ru := locRU,
                loc_public_name_ua := locUA,
                language := u.language, description := h.description,
                created_at := h.created_at, updated_at := h.updated_at,
                deleted_at := h.deleted_at }

/-- `selectHelpByIDSQL`: `where h.id = $1`, with the locality join for
display names.  There is no `deleted_at` condition in this query.
`none` corresponds to `sql.ErrNoRows`, which `ErrFromCode` maps to
`ErrNotFound`. -/
def selectHelpByID (db : DB) (uid : Nat) : Option HelpRow :=
  (db.helps.find? fun h => h.id == uid).bind fun h =>
    (db.localities.find? fun l => l.id == h.locality_id).bind fun l =>
      helpJoinRow db l.public_name_ua l.public_name_ru l.public_name_en h

/-- `selectHelpsByUserSQL`: non-deleted helps of one creator. -/
def selectHelpsByUser (db : DB) (uid : Nat) : List HelpRow :=
  db.helps.filterMap fun h =>
    if h.creator_id == uid && h.deleted_at == none then
      (db.localities.find? fun l => l.id == h.locality_id).bind fun l =>
        helpJoinRow db l.public_name_ua l.public_name_ru l.public_name_en h
    else none

/-- `selectHelpsCountByUserSQL`: `count(*)` of non-deleted helps. -/
def selectHelpsCountByUser (db : DB) (uid : Nat) : Nat :=
  (db.helps.filter fun h => h.creator_id == uid && h.deleted_at == none).length

/-- The `where` clause of `selectExpiredHelps`:
`(h.created_at < $1 and h.updated_at is null) or h.updated_at < $1`;
a NULL `updated_at` makes the second comparison unknown, hence false. -/
def expiredPred (t : Nat) (h : Help) : Bool :=
  (decide (h.created_at < t) && h.updated_at == none) ||
    (match h.updated_at with
     | some u => decide (u < t)
     | none => false)

/-- `selectExpiredHelps`: stale, non-deleted helps with display joins. -/
def selectExpiredHelps (db : DB) (t : Nat) : List HelpRow :=
  db.helps.filterMap fun h =>
    if expiredPred t h && h.deleted_at == none then
      (db.localities.find? fun l => l.id == h.locality_id).bind fun l =>
        helpJoinRow db l.public_name_ua l.public_name_ru l.public_name_en h
    else none

/-- `keepHelpSQL`: `update help set updated_at = $2 where id = $1`. -/
def keepHelp (db : DB) (hid : Nat) (t : Nat) : DB :=
  { db with helps := db.helps.map fun h =>
      if h.id == hid then { h with updated_at := some t } else h }

/-- `deleteHelpSQL`: `update help set deleted_at = $2 where id = $1`. -/
def deleteHelp (db : DB) (hid : Nat) (t : Nat) : DB :=
  { db with helps := db.helps.map fun h =>
      if h.id == hid then { h with deleted_at := some t } else h }

/-! ### The hierarchy rollup of the matching queries -/

/-- The `left join locality reg_l on (l.parent_id = reg_l.parent_id and
(l.type = 'VILLAGE' or l.type = 'URBAN' or l.type = 'SETTLEMENT'))` of
`selectHelpsBySubscriptionSQL` and `selectHelpsByLocalityCategorySQL`:
one joined row per matching sibling, or a single NULL row when none
match.  A NULL `l.parent_id` makes the SQL equality unknown, hence
false. -/
def regRows (db : DB) (l : Locality) : List (Option Locality) :=
  let sibs := db.localities.filter fun r =>
    l.parent_id.isSome && r.parent_id == l.parent_id &&
      (l.type == "VILLAGE" || l.type == "URBAN" || l.type == "SETTLEMENT")
  if sibs.isEmpty then [none] else sibs.map some

/-- The locality relation those two queries implement: a help at
locality id `lid` is related to query-side locality `l` when some
joined row satisfies `coalesce(reg_l.id, l.id) = h.locality_id`. -/
def matcherRelates (db : DB) (l : Locality) (lid : Nat) : Bool :=
  (regRows db l).any fun reg => ((reg.map Locality.id).getD l.id) == lid

/-- `selectHelpsBySubscriptionSQL`: helps matching a subscription via
the rollup join, with display names from `coalesce(reg_l, l)`. -/
def selectHelpsBySubscription (db : DB) (sid : Nat) : List HelpRow :=
  (db.subscriptions.filter fun s => s.id == sid).flatMap fun s =>
    (db.localities.filter fun l => l.id == s.locality_id).flatMap fun l =>
      (regRows db l).flatMap fun reg =>
        db.helps.filterMap fun h =>
          if h.locality_id == ((reg.map Locality.id).getD l.id) &&
              h.category_ids.contains s.category_id && h.deleted_at == none then
            let dl := reg.getD l
            helpJoinRow db dl.public_name_ua dl.public_name_ru dl.public_name_en h
          else none

/-- `selectHelpsByLocalityCategorySQL`: helps matching a locality and a
category via the same rollup join. -/
def selectHelpsByLocalityCategory (db : DB) (locId : Nat) (cid : Nat) : List HelpRow :=
  (db.localities.filter fun l => l.id == locId).flatMap fun l =>
    (regRows db l).flatMap fun reg =>
      db.helps.filterMap fun h =>
        if h.locality_id == ((reg.map Locality.id).getD l.id) &&
            h.category_ids.contains cid && h.deleted_at == none then
          let dl := reg.getD l
          helpJoinRow db dl.public_name_ua dl.public_name_ru dl.public_name_en h
        else none

/-! ### Subscription queries -/

/-- Output row of the subscription queries (Go struct
`SubscriptionValue`). -/
structure SubRow where
  id : Nat
  creator_id : Nat
  category_id : Nat
  chat_id : Int
  language : String
  name_ua : String
  name_ru : String
  name_en : String
  public_name_ua : String
  public_name_ru : String
  public_name_en : String
  created_at : Nat
  deriving Repr, DecidableEq

/-- The joins shared by the subscription queries: creator, category and
locality rows resolved for display. -/
def subRow (db : DB) (s : Subscription) : Option SubRow :=
  (db.users.find? fun u => u.id == s.creator_id).bind fun u =>
    (db.categories.find? fun c => c.id == s.category_id).bind fun c =>
      (db.localities.find? fun l => l.id == s.locality_id).bind fun l =>
        some { id := s.id, creator_id := s.creator_id, category_id := s.category_id,
               chat_id := u.chat_id, language := u.language,
               name_ua := c.name_ua, name_ru := c.name_ru, name_en := c.name_en,
               public_name_ua := l.public_name_ua, public_name_ru := l.public_name_ru,
               public_name_en := l.public_name_en, created_at := s.created_at }

/-- `selectSubscriptionsByUserSQL`. -/
def selectSubscriptionsByUser (db : DB) (uid : Nat) : List SubRow :=
  db.subscriptions.filterMap fun s =>
    if s.creator_id == uid then subRow db s else none

/-- `distinct on (s.creator_id)`: keep the first row per creator. -/
def dedupByCreator (seen : List Nat) : List SubRow → List SubRow
  | [] => []
  | r :: rs =>
    if seen.contains r.creator_id then dedupByCreator seen rs
    else r :: dedupByCreator (r.creator_id :: seen) rs

/-- `selectSubscriptionsByLocalityCategoriesSQL`: subscriptions whose
locality id equals the parameter (`where l.id = $1` — no rollup join in
this query) and whose category is in the parameter array, distinct by
creator. -/
def selectSubscriptionsByLocalityCategories (db : DB) (locId : Nat) (cids : List Nat) : List SubRow :=
  dedupByCreator [] (db.subscriptions.filterMap fun s =>
    if s.locality_id == locId && cids.contains s.category_id then subRow db s else none)

/-- `deleteSubscriptionSQL`: `delete from subscription where id = $1` —
a physical row removal. -/
def deleteSubscription (db : DB) (sid : Nat) : DB :=
  { db with subscriptions := db.subscriptions.filter fun s => !(s.id == sid) }

/-- `selectSubscriptionExistsSQL`. -/
def selectSubscriptionExists (db : DB) (sid : Nat) : Bool :=
  db.subscriptions.any fun s => s.id == sid

/-- `selectSubscriptionsCountByUserSQL`. -/
def selectSubscriptionsCountByUser (db : DB) (uid : Nat) : Nat :=
  (db.subscriptions.filter fun s => s.creator_id == uid).length

/-! ### The notification worker (`listenSubscriptionUpdates`) -/

/-- The inner loop over one batch received from the channel: each
notification is sent in order; on the first send error the loop is
abandoned, returning the successfully delivered ones and `false`. -/
def sendBatch (send : α → Bool) : List α → List α × Bool
  | [] => ([], true)
  | n :: rest =>
    if send n then
      let r := sendBatch send rest
      (n :: r.1, r.2)
    else ([], false)

/-- The worker loop of `listenSubscriptionUpdates`: batches are consumed
from the queue in order; a send error inside a batch makes the worker
`return`, so no later batch is processed.  The result is the list of
delivered notifications. -/
def listenSubscriptionUpdates (send : α → Bool) : List (List α) → List α
  | [] => []
  | b :: bs =>
    let r := sendBatch send b
    if r.2 then r.1 ++ listenSubscriptionUpdates send bs else r.1

/-- Modelled from the spec: the matching rule as §4.3 states it — a
post at locality `L` matches a subscription at locality `S` iff `L = S`,
or `L` and `S` share a parent and both types are among VILLAGE, URBAN,
SETTLEMENT.  Used only to compare the spec's rule with the queries. -/
def specMatchRule (L S : Locality) : Bool :=
  decide (L = S) ||
    (L.parent_id.isSome && L.parent_id == S.parent_id &&
      (L.type == "VILLAGE" || L.type == "URBAN" || L.type == "SETTLEMENT") &&
      (S.type == "VILLAGE" || S.type == "URBAN" || S.type == "SETTLEMENT"))

/-! ### Concrete states used to test the claims -/

def catFood : Category := { id := 7, name_ua := "f", name_ru := "fr", name_en := "fe" }

def userAnna : AppUser := { id := 100, tg_id := 1, chat_id := 9, name := "U", language := "UA" }

def vil10 : Locality :=
  { id := 10, type := "VILLAGE", name_ua := "v", name_ru := "v",
    public_name_ua := "V", public_name_ru := "VR", public_name_en := "VE",
    parent_id := some 1 }

def city11 : Locality :=
  { id := 11, type := "CITY", name_ua := "c", name_ru := "c",
    public_name_ua := "C", public_name_ru := "CR", public_name_en := "CE",
    parent_id := some 1 }

def vil12 : Locality :=
  { id := 12, type := "VILLAGE", name_ua := "w", name_ru := "w",
    public_name_ua := "W", public_name_ru := "WR", public_name_en := "WE",
    parent_id := some 1 }

def help500 : Help :=
  { id := 500, creator_id := 100, category_ids := [7], locality_id := 11,
    description := "d", created_at := 0, updated_at := none, deleted_at := none }

def sub600 : Subscription :=
  { id := 600, creator_id := 100, category_id := 7, locality_id := 10, created_at := 0 }

/-- C1 state: a help post at CITY 11 and a subscription at sibling
VILLAGE 10, both under parent 1. -/
def c1db : DB :=
  { localities := [vil10, city11], categories := [catFood], users := [userAnna],
    helps := [help500], subscriptions := [sub600] }

/-- C2 state: a subscription at VILLAGE 12, sibling of VILLAGE 10. -/
def c2db : DB :=
  { localities := [vil10, vil12], categories := [catFood], users := [userAnna],
    helps := [],
    subscriptions := [{ id := 601, creator_id := 100, category_id := 7,
                        locality_id := 12, created_at := 0 }] }

def sub602 : Subscription :=
  { id := 602, creator_id := 100, category_id := 7, locality_id := 10, created_at := 3 }

/-- C2 witness state: a subscription at exactly locality 10. -/
def c2dbW : DB :=
  { localities := [vil10, vil12], categories := [catFood], users := [userAnna],
    helps := [], subscriptions := [sub602] }

def loc20 : Locality :=
  { id := 20, type := "CITY", name_ua := "k", name_ru := "k",
    public_name_ua := "K", public_name_ru := "KR", public_name_en := "KE",
    parent_id := some 1 }

def help501del : Help :=
  { id := 501, creator_id := 100, category_ids := [7], locality_id := 20,
    description := "d", created_at := 0, updated_at := none, deleted_at := some 5 }

/-- C3 state: a soft-deleted help with all of its joins resolvable. -/
def c3db : DB :=
  { localities := [loc20], categories := [catFood], users := [userAnna],
    helps := [help501del], subscriptions := [] }

def countryL : Locality :=
  { id := 1, type := "COUNTRY", name_ua := "q", name_ru := "q",
    public_name_ua := "Q", public_name_ru := "QR", public_name_en := "QE",
    parent_id := none }

def stateL : Locality :=
  { id := 2, type := "STATE", name_ua := "r", name_ru := "r",
    public_name_ua := "R", public_name_ru := "RR", public_name_en := "RE",
    parent_id := some 1 }

def districtL : Locality :=
  { id := 3, type := "DISTRICT", name_ua := "aa", name_ru := "zz",
    public_name_ua := "D", public_name_ru := "DR", public_name_en := "DE",
    parent_id := some 2 }

/-- C4 state: a DISTRICT whose UA name exactly equals the query input. -/
def c4db : DB :=
  { localities := [countryL, stateL, districtL], categories := [], users := [],
    helps := [], subscriptions := [] }

def inp4 : String := "aa"

def cityB : Locality :=
  { id := 4, type := "CITY", name_ua := "b", name_ru := "b",
    public_name_ua := "CityB", public_name_ru := "CBR", public_name_en := "CBE",
    parent_id := some 3 }

def vilA : Locality :=
  { id := 5, type := "VILLAGE", name_ua := "a", name_ru := "a",
    public_name_ua := "VillA", public_name_ru := "VAR", public_name_en := "VAE",
    parent_id := some 3 }

def districtW : Locality :=
  { id := 3, type := "DISTRICT", name_ua := "yy", name_ru := "ww",
    public_name_ua := "D", public_name_ru := "DR", public_name_en := "DE",
    parent_id := some 2 }

/-- C6 state: a CITY at edit distance 1 and a VILLAGE at edit distance 0
from the input, both with full parent chains. -/
def c6db : DB :=
  { localities := [countryL, stateL, districtW, cityB, vilA], categories := [],
    users := [], helps := [], subscriptions := [] }

def inp6 : String := "a"

def c6cityRow : LocalityRegion :=
  { id := 4, leven := 1, type := "CITY", name := "CityB", region_name := "R" }

def c6vilRow : LocalityRegion :=
  { id := 5, leven := 0, type := "VILLAGE", name := "VillA", region_name := "R" }

def help510 : Help :=
  { id := 510, creator_id := 100, category_ids := [7], locality_id := 20,
    description := "d", created_at := 10, updated_at := none, deleted_at := none }

/-- C5 state: one active help created at time 10, never renewed. -/
def c5db : DB :=
  { localities := [loc20], categories := [catFood], users := [userAnna],
    helps := [help510], subscriptions := [] }

def c5row : HelpRow :=
  { id := 510, creator_id := 100, categories := [categoryNames catFood],
    loc_public_name_en := "KE", loc_public_name_ru := "KR", loc_public_name_ua := "K",
    language := "UA", description := "d", created_at := 10,
    updated_at := none, deleted_at := none }

/-- C7 state: help 501 already soft-deleted at time 5, plus an active
help 510; one subscription whose id differs from the deleted one. -/
def c7db : DB :=
  { localities := [loc20], categories := [catFood], users := [userAnna],
    helps := [help501del, help510], subscriptions := [sub602] }

/-- C8/C9 notification send stub: succeeds exactly on notification 0. -/
def c8send : Nat → Bool := fun n => n == 0

def c8queue : List (List Nat) := [[0, 1], [0]]

/-- The row `selectHelpByID` returns for the soft-deleted help 501. -/
def c3row : HelpRow :=
  { id := 501, creator_id := 100, categories := [categoryNames catFood],
    loc_public_name_en := "KE", loc_public_name_ru := "KR", loc_public_name_ua := "K",
    language := "UA", description := "d", created_at := 0,
    updated_at := none, deleted_at := some 5 }

/-- The row the resolver returns for the DISTRICT in `c4db`. -/
def c4row : LocalityRegion :=
  { id := 3, leven := 0, type := "DISTRICT", name := "D", region_name := "Q" }

/-! ### Helper lemmas -/

theorem helpJoinRow_fields {db : DB} {a b c : String} {h : Help} {r : HelpRow}
    (hj : helpJoinRow db a b c h = some r) :
    r.id = h.id ∧ r.creator_id = h.creator_id ∧ r.deleted_at = h.deleted_at ∧
      r.updated_at = h.updated_at ∧ r.created_at = h.created_at := by
  unfold helpJoinRow at hj
  rw [Option.bind_eq_some] at hj
  obtain ⟨u, _, hj⟩ := hj
  dsimp only at hj
  split at hj
  · exact absurd hj (by simp)
  · simp only [Option.some.injEq] at hj
    subst hj
    exact ⟨rfl, rfl, rfl, rfl, rfl⟩

theorem subRow_fields {db : DB} {s : Subscription} {r : SubRow}
    (hr : subRow db s = some r) :
    r.id = s.id ∧ r.creator_id = s.creator_id ∧ r.category_id = s.category_id := by
  unfold subRow at hr
  rw [Option.bind_eq_some] at hr
  obtain ⟨u, _, hr⟩ := hr
  rw [Option.bind_eq_some] at hr
  obtain ⟨c, _, hr⟩ := hr
  rw [Option.bind_eq_some] at hr
  obtain ⟨l, _, hr⟩ := hr
  simp only [Option.some.injEq] at hr
  subst hr
  exact ⟨rfl, rfl, rfl⟩

theorem expiredPred_iff (t : Nat) (h : Help) :
    expiredPred t h = true ↔ h.updated_at.getD h.created_at < t := by
  cases hu : h.updated_at <;> simp [expiredPred, hu]

theorem sendBatch_all_true (send : α → Bool) (b : List α)
    (h : ∀ m ∈ b, send m = true) : sendBatch send b = (b, true) := by
  induction b with
  | nil => rfl
  | cons n rest ih =>
    rw [sendBatch, if_pos (h n (by simp)), ih fun m hm => h m (by simp [hm])]

theorem sendBatch_first_false (send : α → Bool) (p rest : List α) (n : α)
    (hp : ∀ m ∈ p, send m = true) (hn : send n = false) :
    sendBatch send (p ++ n :: rest) = (p, false) := by
  induction p with
  | nil => simp [sendBatch, hn]
  | cons m p ih =>
    rw [List.cons_append, sendBatch, if_pos (hp m (by simp)),
      ih fun m hm => hp m (by simp [hm])]

theorem dedupByCreator_subset :
    ∀ (l : List SubRow) (seen : List Nat) (r : SubRow),
      r ∈ dedupByCreator seen l → r ∈ l := by
  intro l
  induction l with
  | nil => intro seen r hr; exact absurd hr (by simp [dedupByCreator])
  | cons a l ih =>
    intro seen r hr
    rw [dedupByCreator] at hr
    split at hr
    · exact List.mem_cons_of_mem a (ih _ r hr)
    · rcases List.mem_cons.1 hr with h | h
      · exact h ▸ List.mem_cons_self a l
      · exact List.mem_cons_of_mem a (ih _ r h)

theorem dedupByCreator_nodup :
    ∀ (l : List SubRow) (seen : List Nat),
      ((dedupByCreator seen l).map SubRow.creator_id).Nodup ∧
        ∀ r ∈ dedupByCreator seen l, seen.contains r.creator_id = false := by
  intro l
  induction l with
  | nil => intro seen; exact ⟨by simp [dedupByCreator], by simp [dedupByCreator]⟩
  | cons a l ih =>
    intro seen
    rw [dedupByCreator]
    split
    · exact ih seen
    · rename_i hseen
      obtain ⟨ihn, ihs⟩ := ih (a.creator_id :: seen)
      refine ⟨?_, ?_⟩
      · rw [List.map_cons, List.nodup_cons]
        refine ⟨?_, ihn⟩
        intro hmem
        obtain ⟨r, hr, hrc⟩ := List.mem_map.1 hmem
        have := ihs r hr
        rw [List.contains_cons] at this
        simp [hrc] at this
      · intro r hr
        rcases List.mem_cons.1 hr with h | h
        · subst h; simpa using hseen
        · have := ihs r h
          rw [List.contains_cons] at this
          exact (Bool.or_eq_false_iff.1 this).2

theorem dedupByCreator_complete :
    ∀ (l : List SubRow) (seen : List Nat) (c : Nat),
      seen.contains c = false → (∃ r ∈ l, r.creator_id = c) →
      ∃ r ∈ dedupByCreator seen l, r.creator_id = c := by
  intro l
  induction l with
  | nil => intro seen c _ h; exact absurd h (by simp)
  | cons a l ih =>
    intro seen c hc ⟨r, hr, hrc⟩
    rw [dedupByCreator]
    split
    · rename_i hseen
      rcases List.mem_cons.1 hr with h | h
      · subst h; rw [hrc] at hseen; rw [hseen] at hc; cases hc
      · exact ih seen c hc ⟨r, h, hrc⟩
    · rename_i hseen
      by_cases hac : a.creator_id = c
      · exact ⟨a, by simp, hac⟩
      · rcases List.mem_cons.1 hr with h | h
        · subst h; exact absurd hrc hac
        · have hc' : c ∉ seen := by simpa using hc
          obtain ⟨r', hr', hrc'⟩ := ih (a.creator_id :: seen) c
            (by simp [List.contains_cons, Ne.symm hac, hc']) ⟨r, h, hrc⟩
          exact ⟨r', List.mem_cons_of_mem a hr', hrc'⟩

theorem regRows_default (db : DB) (S : Locality)
    (h : db.localities.filter (fun r =>
        S.parent_id.isSome && r.parent_id == S.parent_id &&
          (S.type == "VILLAGE" || S.type == "URBAN" || S.type == "SETTLEMENT")) = []) :
    regRows db S = [none] := by
  unfold regRows
  rw [h]
  rfl

theorem regRows_vus (db : DB) (S : Locality) (p : Nat) (hp : S.parent_id = some p)
    (ht : S.type = "VILLAGE" ∨ S.type = "URBAN" ∨ S.type = "SETTLEMENT")
    (hS : S ∈ db.localities) :
    regRows db S = (db.localities.filter fun r => r.parent_id == some p).map some := by
  unfold regRows
  have hpred : ∀ r ∈ db.localities,
      (S.parent_id.isSome && r.parent_id == S.parent_id &&
        (S.type == "VILLAGE" || S.type == "URBAN" || S.type == "SETTLEMENT"))
        = (r.parent_id == some p) :=
    fun r _ => by rcases ht with h | h | h <;> simp [hp, h]
  rw [List.filter_congr hpred]
  rw [if_neg]
  simp only [List.isEmpty_iff]
  exact List.ne_nil_of_mem (List.mem_filter.2 ⟨hS, by simp [hp]⟩)

theorem matcherRelates_default (db : DB) (S : Locality) (lid : Nat)
    (h : regRows db S = [none]) :
    (matcherRelates db S lid = true ↔ lid = S.id) := by
  unfold matcherRelates
  rw [h]
  simp only [List.any_cons, List.any_nil, Bool.or_false, Option.map_none',
    Option.getD_none, beq_iff_eq]
  exact eq_comm

/-! ### C1 -/

/-- Claim C1, counterexample: the help post lives at CITY 11, the
subscription at sibling VILLAGE 10 (same parent 1); the spec's rule
(both types fine-grained) does not relate them, yet
`selectHelpsBySubscription` returns the post, because the query checks
only the subscription-side locality type. -/
theorem c1_counterexample :
    (selectHelpsBySubscription c1db 600).map HelpRow.id = [500] ∧
      help500.locality_id = city11.id ∧ sub600.locality_id = vil10.id ∧
      city11.type = "CITY" ∧ vil10.parent_id = city11.parent_id ∧
      specMatchRule city11 vil10 = false := by
  decide

/-- Claim C1, amended: the matcher relates a post locality `lid` to a
subscription locality `S` iff `lid = S.id`, or `S`'s type is VILLAGE,
URBAN or SETTLEMENT and some locality with id `lid` shares `S`'s
parent — the post-side type is not checked.  A CITY-side subscription
still only matches its own locality; and every row the subscription
matching query returns arises through this relation. -/
theorem c1_amended :
    (∀ (db : DB) (S : Locality), S ∈ db.localities → ∀ lid : Nat,
      (matcherRelates db S lid = true ↔
        (lid = S.id ∨
          ((S.type = "VILLAGE" ∨ S.type = "URBAN" ∨ S.type = "SETTLEMENT") ∧
            ∃ p, S.parent_id = some p ∧
              ∃ L ∈ db.localities, L.id = lid ∧ L.parent_id = some p)))) ∧
    (∀ (db : DB) (S : Locality) (lid : Nat), S.type = "CITY" →
      (matcherRelates db S lid = true ↔ lid = S.id)) ∧
    (∀ (db : DB) (sid : Nat) (r : HelpRow), r ∈ selectHelpsBySubscription db sid →
      ∃ s ∈ db.subscriptions, s.id = sid ∧
        ∃ l ∈ db.localities, l.id = s.locality_id ∧
          ∃ h ∈ db.helps, h.id = r.id ∧ h.deleted_at = none ∧
            h.category_ids.contains s.category_id = true ∧
            matcherRelates db l h.locality_id = true) := by
  refine ⟨?_, ?_, ?_⟩
  · intro db S hS lid
    rcases hp : S.parent_id with _ | p
    · rw [matcherRelates_default db S lid
        (regRows_default db S (List.filter_eq_nil_iff.2 (fun r _ => by simp [hp])))]
      constructor
      · exact fun h => Or.inl h
      · rintro (h | ⟨_, p, hpe, _⟩)
        · exact h
        · cases hpe
    · by_cases ht : S.type = "VILLAGE" ∨ S.type = "URBAN" ∨ S.type = "SETTLEMENT"
      · have hmem : S ∈ db.localities.filter fun r => r.parent_id == some p :=
          List.mem_filter.2 ⟨hS, by simp [hp]⟩
        unfold matcherRelates
        rw [regRows_vus db S p hp ht hS]
        constructor
        · intro hany
          obtain ⟨reg, hreg, hrid⟩ := List.any_eq_true.1 hany
          obtain ⟨r, hr, rfl⟩ := List.mem_map.1 hreg
          rw [List.mem_filter] at hr
          refine Or.inr ⟨ht, p, rfl, r, hr.1, ?_, by simpa using hr.2⟩
          simpa using hrid
        · rintro (h | ⟨_, p', hpe, L, hL, hLid, hLp⟩)
          · exact List.any_eq_true.2
              ⟨some S, List.mem_map_of_mem some hmem, by simp [h]⟩
          · cases hpe
            exact List.any_eq_true.2
              ⟨some L, List.mem_map_of_mem some
                (List.mem_filter.2 ⟨hL, by simp [hLp]⟩), by simp [hLid]⟩
      · push_neg at ht
        obtain ⟨h1, h2, h3⟩ := ht
        rw [matcherRelates_default db S lid
          (regRows_default db S (List.filter_eq_nil_iff.2
            (fun r _ => by simp [h1, h2, h3])))]
        constructor
        · exact fun h => Or.inl h
        · rintro (h | ⟨habs, _⟩)
          · exact h
          · rcases habs with h | h | h
            · exact absurd h h1
            · exact absurd h h2
            · exact absurd h h3
  · intro db S lid hCity
    exact matcherRelates_default db S lid
      (regRows_default db S (List.filter_eq_nil_iff.2 (fun r _ => by simp [hCity])))
  · intro db sid r hr
    unfold selectHelpsBySubscription at hr
    rw [List.mem_flatMap] at hr
    obtain ⟨s, hsmem, hr⟩ := hr
    rw [List.mem_filter] at hsmem
    obtain ⟨hsmem, hsid⟩ := hsmem
    rw [List.mem_flatMap] at hr
    obtain ⟨l, hlmem, hr⟩ := hr
    rw [List.mem_filter] at hlmem
    obtain ⟨hlmem, hlid⟩ := hlmem
    rw [List.mem_flatMap] at hr
    obtain ⟨reg, hreg, hr⟩ := hr
    rw [List.mem_filterMap] at hr
    obtain ⟨h, hhmem, hh⟩ := hr
    dsimp only at hh
    split at hh
    · rename_i hcond
      rw [Bool.and_eq_true, Bool.and_eq_true] at hcond
      obtain ⟨⟨hloc, hcat⟩, hdel⟩ := hcond
      obtain ⟨hid, _, _, _, _⟩ := helpJoinRow_fields hh
      refine ⟨s, hsmem, by simpa using hsid, l, hlmem, by simpa using hlid.symm,
        h, hhmem, hid.symm, by simpa using hdel, hcat, ?_⟩
      rw [matcherRelates, List.any_eq_true]
      exact ⟨reg, hreg, by simpa using (beq_iff_eq.1 hloc).symm⟩
    · cases hh

/-- Claim C1, witness: the relation holds between a subscription-side
VILLAGE and a sibling locality, instantiating the amended theorem. -/
theorem c1_witness : matcherRelates c1db vil10 11 = true :=
  (c1_amended.1 c1db vil10 (by decide) 11).mpr
    (Or.inr ⟨Or.inl rfl, 1, rfl, city11, by decide, rfl, rfl⟩)

/-! ### C2 -/

/-- Claim C2, counterexample: the only subscription sits at VILLAGE 12,
a sibling of VILLAGE 10 under the same parent, so the spec's rollup rule
relates the two localities; yet the subscription query for a posting at
locality 10 returns nothing, because it matches the locality id exactly. -/
theorem c2_counterexample :
    selectSubscriptionsByLocalityCategories c2db 10 [7] = [] ∧
      c2db.subscriptions.map Subscription.locality_id = [12] ∧
      c2db.subscriptions.map Subscription.category_id = [7] ∧
      vil10.id = 10 ∧ specMatchRule vil10 vil12 = true := by
  decide

/-- Claim C2, amended: the query returns exactly the subscriptions whose
locality id equals the parameter (no hierarchy rollup) and whose
category is among the posting's categories, at most one per creator:
every returned row arises from such a subscription, the returned
creators are distinct, and every such subscription with resolvable
joins is represented by a row of its creator. -/
theorem c2_amended :
    (∀ (db : DB) (locId : Nat) (cids : List Nat) (r : SubRow),
      r ∈ selectSubscriptionsByLocalityCategories db locId cids →
        ∃ s ∈ db.subscriptions, r.id = s.id ∧ r.creator_id = s.creator_id ∧
          s.locality_id = locId ∧ cids.contains s.category_id = true) ∧
    (∀ (db : DB) (locId : Nat) (cids : List Nat),
      ((selectSubscriptionsByLocalityCategories db locId cids).map
        SubRow.creator_id).Nodup) ∧
    (∀ (db : DB) (locId : Nat) (cids : List Nat) (s : Subscription),
      s ∈ db.subscriptions → s.locality_id = locId →
      cids.contains s.category_id = true → (subRow db s).isSome = true →
        ∃ r ∈ selectSubscriptionsByLocalityCategories db locId cids,
          r.creator_id = s.creator_id) := by
  refine ⟨?_, ?_, ?_⟩
  · intro db locId cids r hr
    unfold selectSubscriptionsByLocalityCategories at hr
    have hr' := dedupByCreator_subset _ _ _ hr
    rw [List.mem_filterMap] at hr'
    obtain ⟨s, hs, hsr⟩ := hr'
    split at hsr
    · rename_i hcond
      rw [Bool.and_eq_true] at hcond
      obtain ⟨h1, h2, h3⟩ := subRow_fields hsr
      exact ⟨s, hs, h1, h2, by simpa using hcond.1, hcond.2⟩
    · cases hsr
  · intro db locId cids
    unfold selectSubscriptionsByLocalityCategories
    exact (dedupByCreator_nodup _ _).1
  · intro db locId cids s hs hsl hsc hsome
    obtain ⟨r, hr⟩ := Option.isSome_iff_exists.1 hsome
    have hmem : s.category_id ∈ cids := by simpa using hsc
    have hpre : r ∈ db.subscriptions.filterMap fun s =>
        if s.locality_id == locId && cids.contains s.category_id then subRow db s
        else none :=
      List.mem_filterMap.2 ⟨s, hs, by rw [if_pos (by simp [hsl, hmem])]; exact hr⟩
    unfold selectSubscriptionsByLocalityCategories
    exact dedupByCreator_complete _ [] s.creator_id rfl
      ⟨r, hpre, (subRow_fields hr).2.1⟩

/-- Claim C2, witness: a subscription at exactly the posting's locality
with a matching category is represented in the result. -/
theorem c2_witness :
    ∃ r ∈ selectSubscriptionsByLocalityCategories c2dbW 10 [7],
      r.creator_id = sub602.creator_id :=
  c2_amended.2.2 c2dbW 10 [7] sub602 (by decide) rfl (by decide) (by decide)

/-! ### C3 -/

/-- Claim C3, counterexample: help 501 is soft-deleted (timestamp 5),
yet the by-id lookup returns it — the query has no deleted filter — so
the lookup does not fail with NotFound on a soft-deleted posting. -/
theorem c3_counterexample :
    selectHelpByID c3db 501 = some c3row ∧ c3row.deleted_at = some 5 := by
  decide

/-- Claim C3, amended: the by-id lookup fails with NotFound when no
posting with the id exists; a soft-deleted posting whose joins resolve
is returned, with its soft-delete timestamp visible in the row. -/
theorem c3_amended :
    (∀ (db : DB) (hid : Nat), (∀ h ∈ db.helps, h.id ≠ hid) →
      selectHelpByID db hid = none) ∧
    (∀ (db : DB) (hid td : Nat) (h : Help) (l : Locality),
      db.helps.find? (fun x => x.id == hid) = some h →
      db.localities.find? (fun x => x.id == h.locality_id) = some l →
      h.deleted_at = some td →
      ∀ r, helpJoinRow db l.public_name_ua l.public_name_ru l.public_name_en h = some r →
        selectHelpByID db hid = some r ∧ r.deleted_at = some td) := by
  constructor
  · intro db hid hne
    unfold selectHelpByID
    rw [List.find?_eq_none.2 (fun x hx => by simp [hne x hx])]
    rfl
  · intro db hid td h l hf hl hd r hj
    unfold selectHelpByID
    rw [hf]
    rw [Option.some_bind, hl, Option.some_bind, hj]
    exact ⟨rfl, by rw [(helpJoinRow_fields hj).2.2.1, hd]⟩

/-- Claim C3, witness: a missing id yields NotFound. -/
theorem c3_witness : selectHelpByID c1db 999 = none :=
  c3_amended.1 c1db 999 (by decide)

/-! ### C4 -/

/-- Claim C4 (code-bug evidence): in the resolver's where clause SQL
binds `and` tighter than `or`, so the coarse-type exclusions attach only
to the `name_ru` branch; a DISTRICT whose UA name equals the input is
returned despite the intended exclusion. -/
theorem c4_district_returned :
    selectLocalityRegions c4db inp4 = [c4row] ∧ c4row.type = "DISTRICT" ∧
      levenshtein districtL.name_ua inp4 = 0 := by
  decide

/-! ### C5 -/

/-- Claim C5: a help row is listed as expired exactly when the posting
is not soft-deleted and its effective last-activity timestamp (renewal
when set, else creation) is strictly before the cutoff; after renewal
at time `t` the posting is absent for every cutoff not after `t`. -/
theorem c5_expiry :
    (∀ (db : DB) (t : Nat) (r : HelpRow), r ∈ selectExpiredHelps db t →
      ∃ h ∈ db.helps, h.id = r.id ∧ h.deleted_at = none ∧
        h.updated_at.getD h.created_at < t) ∧
    (∀ (db : DB) (t : Nat) (h : Help) (l : Locality) (r : HelpRow),
      h ∈ db.helps →
      db.localities.find? (fun x => x.id == h.locality_id) = some l →
      helpJoinRow db l.public_name_ua l.public_name_ru l.public_name_en h = some r →
      h.deleted_at = none → h.updated_at.getD h.created_at < t →
      r ∈ selectExpiredHelps db t) ∧
    (∀ (db : DB) (hid t cutoff : Nat), cutoff ≤ t →
      ∀ r ∈ selectExpiredHelps (keepHelp db hid t) cutoff, r.id ≠ hid) := by
  refine ⟨?_, ?_, ?_⟩
  · intro db t r hr
    unfold selectExpiredHelps at hr
    rw [List.mem_filterMap] at hr
    obtain ⟨h, hmem, hcond⟩ := hr
    split at hcond
    · rename_i hc
      rw [Bool.and_eq_true] at hc
      rw [Option.bind_eq_some] at hcond
      obtain ⟨l, _, hj⟩ := hcond
      exact ⟨h, hmem, (helpJoinRow_fields hj).1.symm, by simpa using hc.2,
        (expiredPred_iff t h).1 hc.1⟩
    · cases hcond
  · intro db t h l r hmem hl hj hdel heff
    unfold selectExpiredHelps
    refine List.mem_filterMap.2 ⟨h, hmem, ?_⟩
    rw [if_pos (by simp [(expiredPred_iff t h).2 heff, hdel])]
    rw [hl, Option.some_bind]
    exact hj
  · intro db hid t cutoff hct r hr
    unfold selectExpiredHelps keepHelp at hr
    dsimp only at hr
    rw [List.mem_filterMap] at hr
    obtain ⟨h', hmem', hcond⟩ := hr
    rw [List.mem_map] at hmem'
    obtain ⟨h, _, rfl⟩ := hmem'
    by_cases hh : (h.id == hid) = true
    · rw [if_pos hh] at hcond
      have hexp : expiredPred cutoff { h with updated_at := some t } = false := by
        simp only [expiredPred]
        simp
        omega
      rw [if_neg (by simp [hexp])] at hcond
      cases hcond
    · rw [if_neg hh] at hcond
      split at hcond
      · rw [Option.bind_eq_some] at hcond
        obtain ⟨l, _, hj⟩ := hcond
        rw [(helpJoinRow_fields hj).1]
        simpa using hh
      · cases hcond

/-- Claim C5, witness: the help created at time 10 and never renewed is
listed as expired for cutoff 15. -/
theorem c5_witness : c5row ∈ selectExpiredHelps c5db 15 :=
  c5_expiry.2.1 c5db 15 help510 loc20 c5row (by decide) (by decide) (by decide)
    rfl (by decide)

/-! ### C6 -/

/-- Claim C6, counterexample: for input that exactly matches the
VILLAGE's name (edit distance 0), the resolver ranks the CITY at edit
distance 1 first, because administrative-type priority dominates edit
distance in the ordering — the distance-0 candidate is not at rank 0. -/
theorem c6_counterexample :
    (selectLocalityRegions c6db inp6).map (fun r => (r.id, r.leven)) =
        [(4, 1), (5, 0)] ∧
      (selectLocalityRegions c6db inp6).head? = some c6cityRow ∧
      c6cityRow.leven = 1 ∧ c6vilRow.leven = 0 := by
  decide

/-- Claim C6, amended: the result list is ordered by administrative-type
priority (CITY, URBAN, SETTLEMENT, VILLAGE, then anything else) and,
within the same priority, by ascending edit distance; hence a
distance-0 candidate precedes every same-priority candidate of larger
distance, but a more urban candidate precedes it regardless of
distance. -/
theorem c6_order :
    ∀ (db : DB) (s : String) (l₁ l₂ l₃ : List LocalityRegion)
      (y z : LocalityRegion),
      selectLocalityRegions db s = l₁ ++ y :: (l₂ ++ z :: l₃) → locLE y z := by
  intro db s l₁ l₂ l₃ y z heq
  have hs : List.Pairwise locLE (selectLocalityRegions db s) := by
    unfold selectLocalityRegions
    exact List.sorted_insertionSort locLE _
  rw [heq] at hs
  have hsub : List.Sublist [y, z] (l₁ ++ y :: (l₂ ++ z :: l₃)) :=
    (List.Sublist.cons₂ y (List.singleton_sublist.2 (by simp))).trans
      (List.sublist_append_right l₁ _)
  have hyz := hs.sublist hsub
  rw [List.pairwise_cons] at hyz
  exact hyz.1 z (by simp)

/-- Claim C6, witness: in the concrete state the ordering relation holds
between the leading CITY row and the trailing VILLAGE row. -/
theorem c6_witness : locLE c6cityRow c6vilRow :=
  c6_order c6db inp6 [] [] [] c6cityRow c6vilRow (by decide)

/-! ### C7 -/

theorem deleted_cond_false {h : Help} (hd : h.deleted_at ≠ none) :
    (h.deleted_at == none) = false := by
  cases hdd : h.deleted_at
  · exact absurd hdd hd
  · simp [hdd]

/-- Re-stamping the soft-delete timestamp of rows that are already
deleted does not change any filterMap whose row function drops deleted
rows. -/
theorem filterMap_upd_deleted {β : Type} (g : Help → Option β) (hid t : Nat)
    (hs : List Help) (hg : ∀ h : Help, h.deleted_at ≠ none → g h = none)
    (hdel : ∀ h ∈ hs, h.id = hid → h.deleted_at ≠ none) :
    (hs.map fun h =>
      if h.id == hid then { h with deleted_at := some t } else h).filterMap g
      = hs.filterMap g := by
  induction hs with
  | nil => rfl
  | cons h hs ih =>
    rw [List.map_cons]
    have ih' := ih fun x hm hi => hdel x (by simp [hm]) hi
    by_cases hh : (h.id == hid) = true
    · rw [if_pos hh,
        List.filterMap_cons_none (hg _ (by simp)),
        List.filterMap_cons_none (hg _ (hdel h (by simp) (by simpa using hh))), ih']
    · rw [if_neg hh]
      cases hgh : g h with
      | none => rw [List.filterMap_cons_none hgh, List.filterMap_cons_none hgh, ih']
      | some b =>
        rw [List.filterMap_cons_some hgh, List.filterMap_cons_some hgh, ih']

/-- The filter analogue of the previous lemma. -/
theorem filter_upd_deleted (p : Help → Bool) (hid t : Nat) (hs : List Help)
    (hp : ∀ h : Help, h.deleted_at ≠ none → p h = false)
    (hdel : ∀ h ∈ hs, h.id = hid → h.deleted_at ≠ none) :
    (hs.map fun h =>
      if h.id == hid then { h with deleted_at := some t } else h).filter p
      = hs.filter p := by
  induction hs with
  | nil => rfl
  | cons h hs ih =>
    rw [List.map_cons]
    have ih' := ih fun x hm hi => hdel x (by simp [hm]) hi
    by_cases hh : (h.id == hid) = true
    · have h1 : p { h with deleted_at := some t } = false := hp _ (by simp)
      have h2 : p h = false := hp _ (hdel h (by simp) (by simpa using hh))
      rw [if_pos hh, List.filter_cons_of_neg (by simp [h1]),
        List.filter_cons_of_neg (by simp [h2]), ih']
    · rw [if_neg hh]
      by_cases hph : p h = true
      · rw [List.filter_cons_of_pos hph, List.filter_cons_of_pos hph, ih']
      · rw [List.filter_cons_of_neg (by simpa using hph),
          List.filter_cons_of_neg (by simpa using hph), ih']

/-- Claim C7, counterexample: help 501 is already soft-deleted at time 5;
deleting it again at time 7 changes the result of the by-id lookup (the
visible soft-delete timestamp moves), so the second delete is not a
no-op with respect to every lookup. -/
theorem c7_counterexample :
    selectHelpByID (deleteHelp c7db 501 7) 501 ≠ selectHelpByID c7db 501 ∧
      help501del ∈ c7db.helps ∧ help501del.id = 501 ∧
      help501del.deleted_at = some 5 := by
  decide

/-- Claim C7, amended: deleting an already-deleted subscription leaves
the state literally unchanged, and re-deleting an already-deleted help
returns no error (the operations are total) and leaves every listing,
counting, expiry and matching operation unchanged — but the by-id
lookup reflects the new soft-delete timestamp, as the counterexample
shows. -/
theorem c7_amended :
    (∀ (db : DB) (sid : Nat), (∀ s ∈ db.subscriptions, s.id ≠ sid) →
      deleteSubscription db sid = db) ∧
    (∀ (db : DB) (hid t : Nat),
      (∀ h ∈ db.helps, h.id = hid → h.deleted_at ≠ none) →
      (∀ uid, selectHelpsByUser (deleteHelp db hid t) uid =
        selectHelpsByUser db uid) ∧
      (∀ uid, selectHelpsCountByUser (deleteHelp db hid t) uid =
        selectHelpsCountByUser db uid) ∧
      (∀ t2, selectExpiredHelps (deleteHelp db hid t) t2 =
        selectExpiredHelps db t2) ∧
      (∀ sid, selectHelpsBySubscription (deleteHelp db hid t) sid =
        selectHelpsBySubscription db sid) ∧
      (∀ locId cid, selectHelpsByLocalityCategory (deleteHelp db hid t) locId cid =
        selectHelpsByLocalityCategory db locId cid) ∧
      (∀ uid, selectSubscriptionsByUser (deleteHelp db hid t) uid =
        selectSubscriptionsByUser db uid) ∧
      (∀ sid, selectSubscriptionExists (deleteHelp db hid t) sid =
        selectSubscriptionExists db sid)) := by
  constructor
  · intro db sid hno
    unfold deleteSubscription
    rw [List.filter_eq_self.2 (fun s hs => by simp [hno s hs])]
  · intro db hid t hdel
    refine ⟨?_, ?_, ?_, ?_, ?_, fun uid => rfl, fun sid => rfl⟩
    · intro uid
      unfold selectHelpsByUser deleteHelp
      dsimp only
      exact filterMap_upd_deleted _ hid t db.helps
        (fun h hd => by rw [if_neg]; simp [deleted_cond_false hd]) hdel
    · intro uid
      unfold selectHelpsCountByUser deleteHelp
      dsimp only
      rw [filter_upd_deleted _ hid t db.helps
        (fun h hd => by simp [deleted_cond_false hd]) hdel]
    · intro t2
      unfold selectExpiredHelps deleteHelp
      dsimp only
      exact filterMap_upd_deleted _ hid t db.helps
        (fun h hd => by rw [if_neg]; simp [deleted_cond_false hd]) hdel
    · intro sid
      unfold selectHelpsBySubscription deleteHelp
      dsimp only
      refine List.flatMap_congr fun s hs => ?_
      refine List.flatMap_congr fun l hl => ?_
      show (regRows db l).flatMap _ = (regRows db l).flatMap _
      refine List.flatMap_congr fun reg hreg => ?_
      exact filterMap_upd_deleted _ hid t db.helps
        (fun h hd => by rw [if_neg]; simp [deleted_cond_false hd]) hdel
    · intro locId cid
      unfold selectHelpsByLocalityCategory deleteHelp
      dsimp only
      refine List.flatMap_congr fun l hl => ?_
      show (regRows db l).flatMap _ = (regRows db l).flatMap _
      refine List.flatMap_congr fun reg hreg => ?_
      exact filterMap_upd_deleted _ hid t db.helps
        (fun h hd => by rw [if_neg]; simp [deleted_cond_false hd]) hdel

/-- Claim C7, witness: re-deleting the already-deleted help 501 leaves
the owner's listing unchanged. -/
theorem c7_witness :
    selectHelpsByUser (deleteHelp c7db 501 8) 100 = selectHelpsByUser c7db 100 :=
  (c7_amended.2 c7db 501 8 (by decide)).1 100

/-! ### C8 -/

/-- Claim C8: if a send fails on some notification (all earlier ones in
the queue having succeeded), the worker delivers exactly the successful
prefix: it terminates at the failure and never delivers the failing
notification or anything after it. -/
theorem c8_worker_stops {α : Type} (send : α → Bool) (qs : List (List α))
    (pre post : List α) (n : α) (hq : qs.flatten = pre ++ n :: post)
    (hpre : ∀ m ∈ pre, send m = true) (hn : send n = false) :
    listenSubscriptionUpdates send qs = pre := by
  induction qs generalizing pre with
  | nil => simp at hq
  | cons b bs ih =>
    rw [List.flatten_cons] at hq
    rcases List.append_eq_append_iff.1 hq with ⟨a', hpre_eq, hrest⟩ | ⟨c', hb, hnp⟩
    · have hball : ∀ m ∈ b, send m = true :=
        fun m hm => hpre m (by simp [hpre_eq, hm])
      rw [listenSubscriptionUpdates, sendBatch_all_true send b hball]
      dsimp only
      rw [if_pos rfl, ih a' hrest fun m hm => hpre m (by simp [hpre_eq, hm])]
      exact hpre_eq.symm
    · cases c' with
      | nil =>
        rw [List.append_nil] at hb
        rw [List.nil_append] at hnp
        subst hb
        rw [listenSubscriptionUpdates, sendBatch_all_true send b hpre]
        dsimp only
        rw [if_pos rfl, ih [] hnp.symm (by simp)]
        exact List.append_nil b
      | cons m c'' =>
        rw [List.cons_append] at hnp
        injection hnp with h1 h2
        subst h1
        subst hb
        rw [listenSubscriptionUpdates,
          sendBatch_first_false send pre c'' n hpre hn]
        simp

/-- Claim C8, witness: with a queue of two batches where the second
notification of the first batch fails, only the first notification is
delivered. -/
theorem c8_witness : listenSubscriptionUpdates c8send c8queue = [0] :=
  c8_worker_stops c8send c8queue [0] [0] 1 (by decide) (by decide) (by decide)

/-! ### C9 -/

/-- Claim C9: subscription deletion physically removes the row — after
it, the existence check is false, no listing or matching row carries the
deleted id, the inverse matching query for that subscription is empty,
and repeating the deletion succeeds and changes nothing. -/
theorem c9_physical_delete :
    ∀ (db : DB) (sid uid locId : Nat) (cids : List Nat),
      selectSubscriptionExists (deleteSubscription db sid) sid = false ∧
      ((selectSubscriptionsByUser (deleteSubscription db sid) uid).map
        SubRow.id).contains sid = false ∧
      ((selectSubscriptionsByLocalityCategories (deleteSubscription db sid)
        locId cids).map SubRow.id).contains sid = false ∧
      selectHelpsBySubscription (deleteSubscription db sid) sid = [] ∧
      deleteSubscription (deleteSubscription db sid) sid =
        deleteSubscription db sid := by
  intro db sid uid locId cids
  have hrowid : ∀ (s : Subscription) (r : SubRow),
      s ∈ (deleteSubscription db sid).subscriptions → subRow db s = some r →
      (sid == r.id) = false := by
    intro s r hs hr
    rw [(subRow_fields hr).1]
    unfold deleteSubscription at hs
    dsimp only at hs
    rw [List.mem_filter] at hs
    have hne : s.id ≠ sid := by simpa using hs.2
    simpa using Ne.symm hne
  refine ⟨?_, ?_, ?_, ?_, ?_⟩
  · rw [Bool.eq_false_iff]
    intro hany
    unfold selectSubscriptionExists deleteSubscription at hany
    dsimp only at hany
    obtain ⟨s, hs, hsid⟩ := List.any_eq_true.1 hany
    rw [List.mem_filter] at hs
    rw [hsid] at hs
    exact absurd hs.2 (by decide)
  · rw [List.contains_eq_any_beq, Bool.eq_false_iff]
    intro hany
    obtain ⟨x, hx, hbeq⟩ := List.any_eq_true.1 hany
    obtain ⟨r, hr, rfl⟩ := List.mem_map.1 hx
    unfold selectSubscriptionsByUser at hr
    rw [List.mem_filterMap] at hr
    obtain ⟨s, hs, hsr⟩ := hr
    split at hsr
    · rw [hrowid s r hs hsr] at hbeq
      cases hbeq
    · cases hsr
  · rw [List.contains_eq_any_beq, Bool.eq_false_iff]
    intro hany
    obtain ⟨x, hx, hbeq⟩ := List.any_eq_true.1 hany
    obtain ⟨r, hr, rfl⟩ := List.mem_map.1 hx
    unfold selectSubscriptionsByLocalityCategories at hr
    have hr' := dedupByCreator_subset _ _ _ hr
    rw [List.mem_filterMap] at hr'
    obtain ⟨s, hs, hsr⟩ := hr'
    split at hsr
    · rw [hrowid s r hs hsr] at hbeq
      cases hbeq
    · cases hsr
  · unfold selectHelpsBySubscription deleteSubscription
    dsimp only
    rw [List.filter_filter]
    rw [List.filter_eq_nil_iff.2 (fun s _ => by
      by_cases h : (s.id == sid) = true <;> simp [h])]
    rfl
  · unfold deleteSubscription
    dsimp only
    rw [List.filter_filter]
    rw [List.filter_congr fun s _ => Bool.and_self (!(s.id == sid))]

/-! ### C10 -/

/-- Claim C10: every row the resolver returns comes from a locality with
both a parent and a grandparent present in the store (the query
inner-joins two parent levels), and the reported region name is the
grandparent's UA display name. -/
theorem c10_resolver_joins :
    ∀ (db : DB) (s : String) (r : LocalityRegion),
      r ∈ selectLocalityRegions db s →
      ∃ l1 ∈ db.localities, ∃ l2 ∈ db.localities, ∃ l3 ∈ db.localities,
        r.id = l1.id ∧ r.type = l1.type ∧ r.name = l1.public_name_ua ∧
        l1.parent_id = some l2.id ∧ l2.parent_id = some l3.id ∧
        r.region_name = l3.public_name_ua := by
  intro db s r hr
  unfold selectLocalityRegions at hr
  dsimp only at hr
  rw [List.mem_insertionSort] at hr
  rw [List.mem_flatMap] at hr
  obtain ⟨l1, hl1, hr⟩ := hr
  rw [List.mem_flatMap] at hr
  obtain ⟨l2, hl2, hr⟩ := hr
  rw [List.mem_filter] at hl2
  rw [List.mem_filterMap] at hr
  obtain ⟨l3, hl3, hr⟩ := hr
  rw [List.mem_filter] at hl3
  split at hr
  · simp only [Option.some.injEq] at hr
    subst hr
    exact ⟨l1, hl1, l2, hl2.1, l3, hl3.1, rfl, rfl, rfl,
      (beq_iff_eq.1 hl2.2).symm, (beq_iff_eq.1 hl3.2).symm, rfl⟩
  · cases hr

/-- Claim C10, witness: the CITY row returned for the concrete state has
its parent (the district) and grandparent (the state) in the store. -/
theorem c10_witness :
    ∃ l1 ∈ c6db.localities, ∃ l2 ∈ c6db.localities, ∃ l3 ∈ c6db.localities,
      c6cityRow.id = l1.id ∧ c6cityRow.type = l1.type ∧
      c6cityRow.name = l1.public_name_ua ∧
      l1.parent_id = some l2.id ∧ l2.parent_id = some l3.id ∧
      c6cityRow.region_name = l3.public_name_ua :=
  c10_resolver_joins c6db inp6 c6cityRow (by decide)

end UASocial
